import Mathlib

/-!
# Verification of the osticket-api dynamic listing engine

Shallow embedding of the query-construction, pagination, attribute-decoding
and identifier-generation core of the repository (`src/main.py`,
`src/utils.py`), with theorems settling the frozen claims about it.

Conventions:
* SQL result sets are lists of rows (multiset semantics, order given by the
  embedded `ORDER BY`).
* MySQL `NULL` is `Option.none`.
* JSON documents are modelled by the inductive `Json` below; the parser
  follows the strict grammar accepted by Python's `json.loads` (which is the
  decoder used at display time) and JSON number tokens are kept as lexemes,
  since no claim depends on numeric evaluation.
-/

namespace OsTicketApi

/-- JSON values.  Objects keep their key/value pairs in insertion order with
duplicate keys collapsed to the last value (as Python `dict` does); number
tokens are kept as their lexeme. -/
inductive Json where
  | null : Json
  | bool : Bool → Json
  | num : String → Json
  | str : String → Json
  | arr : List Json → Json
  | obj : List (String × Json) → Json
  deriving Repr

mutual

/-- Structural equality test for `Json` (the deriving handler does not cover
this nested inductive). -/
def Json.beq (x y : Json) : Bool :=
  match x, y with
  | .null, .null => true
  | .bool p, .bool q => p == q
  | .num p, .num q => p == q
  | .str p, .str q => p == q
  | .arr p, .arr q => Json.beqList p q
  | .obj p, .obj q => Json.beqFields p q
  | _, _ => false

/-- Elementwise `Json.beq` on lists of values. -/
def Json.beqList (xs ys : List Json) : Bool :=
  match xs, ys with
  | [], [] => true
  | p :: ps, q :: qs => Json.beq p q && Json.beqList ps qs
  | _, _ => false

/-- Elementwise `Json.beq` on object fields. -/
def Json.beqFields (xs ys : List (String × Json)) : Bool :=
  match xs, ys with
  | [], [] => true
  | (ka, va) :: ps, (kb, vb) :: qs =>
    ka == kb && Json.beq va vb && Json.beqFields ps qs
  | _, _ => false

end

mutual

theorem Json.beq_iff_eq : ∀ a b : Json, Json.beq a b = true ↔ a = b
  | .null, .null => by simp [Json.beq]
  | .bool _, .bool _ => by simp [Json.beq]
  | .num _, .num _ => by simp [Json.beq]
  | .str _, .str _ => by simp [Json.beq]
  | .arr x, .arr y => by simp [Json.beq, Json.beqList_iff_eq x y]
  | .obj x, .obj y => by simp [Json.beq, Json.beqFields_iff_eq x y]
  | .null, .bool _ | .null, .num _ | .null, .str _ | .null, .arr _
  | .null, .obj _ | .bool _, .null | .bool _, .num _ | .bool _, .str _
  | .bool _, .arr _ | .bool _, .obj _ | .num _, .null | .num _, .bool _
  | .num _, .str _ | .num _, .arr _ | .num _, .obj _ | .str _, .null
  | .str _, .bool _ | .str _, .num _ | .str _, .arr _ | .str _, .obj _
  | .arr _, .null | .arr _, .bool _ | .arr _, .num _ | .arr _, .str _
  | .arr _, .obj _ | .obj _, .null | .obj _, .bool _ | .obj _, .num _
  | .obj _, .str _ | .obj _, .arr _ => by simp [Json.beq]

theorem Json.beqList_iff_eq : ∀ a b : List Json, Json.beqList a b = true ↔ a = b
  | [], [] => by simp [Json.beqList]
  | [], _ :: _ => by simp [Json.beqList]
  | _ :: _, [] => by simp [Json.beqList]
  | p :: ps, q :: qs => by
    simp [Json.beqList, Json.beq_iff_eq p q, Json.beqList_iff_eq ps qs]

theorem Json.beqFields_iff_eq :
    ∀ a b : List (String × Json), Json.beqFields a b = true ↔ a = b
  | [], [] => by simp [Json.beqFields]
  | [], _ :: _ => by simp [Json.beqFields]
  | _ :: _, [] => by simp [Json.beqFields]
  | (ka, va) :: ps, (kb, vb) :: qs => by
    simp [Json.beqFields, Json.beq_iff_eq va vb, Json.beqFields_iff_eq ps qs,
      and_assoc]

end

instance : DecidableEq Json := fun a b =>
  decidable_of_iff _ (Json.beq_iff_eq a b)

/-- JSON whitespace accepted between tokens by `json.loads`. -/
def isJsonWs (c : Char) : Bool :=
  c = ' ' || c = '\t' || c = '\n' || c = '\r'

/-- Drop leading JSON whitespace. -/
def skipWs : List Char → List Char
  | [] => []
  | c :: cs => if isJsonWs c then skipWs cs else c :: cs

/-- Value of a hexadecimal digit. -/
def hexVal (c : Char) : Option Nat :=
  if '0' ≤ c ∧ c ≤ '9' then some (c.toNat - '0'.toNat)
  else if 'a' ≤ c ∧ c ≤ 'f' then some (c.toNat - 'a'.toNat + 10)
  else if 'A' ≤ c ∧ c ≤ 'F' then some (c.toNat - 'A'.toNat + 10)
  else none

/-- Parse the body of a JSON string after the opening quote; returns the
decoded characters and the remaining input after the closing quote.
Unescaped control characters are rejected, as `json.loads` does in strict
mode. -/
def parseStringBody : List Char → Option (List Char × List Char)
  | [] => none
  | '"' :: rest => some ([], rest)
  | '\\' :: 'u' :: a :: b :: c :: d :: rest => do
    let ha ← hexVal a
    let hb ← hexVal b
    let hc ← hexVal c
    let hd ← hexVal d
    let (s, r) ← parseStringBody rest
    pure (Char.ofNat (((ha * 16 + hb) * 16 + hc) * 16 + hd) :: s, r)
  | '\\' :: e :: rest => do
    let c ← match e with
      | '"' => some '"'
      | '\\' => some '\\'
      | '/' => some '/'
      | 'b' => some (Char.ofNat 8)
      | 'f' => some (Char.ofNat 12)
      | 'n' => some '\n'
      | 'r' => some '\r'
      | 't' => some '\t'
      | _ => none
    let (s, r) ← parseStringBody rest
    pure (c :: s, r)
  | c :: rest => do
    if c.toNat < 32 then none
    else
      let (s, r) ← parseStringBody rest
      pure (c :: s, r)

/-- Take a maximal run of decimal digits. -/
def takeDigits : List Char → List Char × List Char
  | [] => ([], [])
  | c :: cs =>
    if c.isDigit then
      let (ds, r) := takeDigits cs
      (c :: ds, r)
    else ([], c :: cs)

/-- Parse a JSON number token (strict grammar: optional minus, integer part
without leading zeros, optional fraction, optional exponent), returning its
lexeme and the rest of the input. -/
def parseNumberLexeme (cs : List Char) : Option (List Char × List Char) := do
  let (sign, cs₁) := match cs with
    | '-' :: r => (['-'], r)
    | r => (([] : List Char), r)
  let (intPart, cs₂) ← match cs₁ with
    | '0' :: r => some (['0'], r)
    | c :: r =>
      if c.isDigit then
        let (ds, r') := takeDigits r
        some (c :: ds, r')
      else none
    | [] => none
  let (fracPart, cs₃) ← match cs₂ with
    | '.' :: r =>
      let (ds, r') := takeDigits r
      if ds.isEmpty then none else some ('.' :: ds, r')
    | r => some (([] : List Char), r)
  let (expPart, cs₄) ← match cs₃ with
    | e :: r =>
      if e = 'e' ∨ e = 'E' then
        let (es, r₁) := match r with
          | '+' :: r' => ([e, '+'], r')
          | '-' :: r' => ([e, '-'], r')
          | r' => ([e], r')
        let (ds, r₂) := takeDigits r₁
        if ds.isEmpty then none else some (es ++ ds, r₂)
      else some (([] : List Char), e :: r)
    | [] => some (([] : List Char), [])
  pure (sign ++ intPart ++ fracPart ++ expPart, cs₄)

/-- Insert a key/value pair into an object association list with Python
`dict` semantics: an existing key keeps its position and gets the new value,
a new key is appended. -/
def objInsert (kvs : List (String × Json)) (k : String) (v : Json) :
    List (String × Json) :=
  if kvs.any (fun p => p.1 = k) then
    kvs.map (fun p => if p.1 = k then (k, v) else p)
  else kvs ++ [(k, v)]

mutual

/-- Fuel-indexed recursive-descent JSON value parser. -/
def parseValue : Nat → List Char → Option (Json × List Char)
  | 0, _ => none
  | Nat.succ fuel, cs =>
    match skipWs cs with
    | 'n' :: 'u' :: 'l' :: 'l' :: rest => some (.null, rest)
    | 't' :: 'r' :: 'u' :: 'e' :: rest => some (.bool true, rest)
    | 'f' :: 'a' :: 'l' :: 's' :: 'e' :: rest => some (.bool false, rest)
    | '"' :: rest =>
      match parseStringBody rest with
      | some (s, r) => some (.str (String.mk s), r)
      | none => none
    | '{' :: rest =>
      match skipWs rest with
      | '}' :: r => some (.obj [], r)
      | r => parseMembers fuel r []
    | '[' :: rest =>
      match skipWs rest with
      | ']' :: r => some (.arr [], r)
      | r => parseElems fuel r []
    | other =>
      match parseNumberLexeme other with
      | some (lex, r) => some (.num (String.mk lex), r)
      | none => none

/-- Parse the members of a JSON object (input positioned at a key). -/
def parseMembers : Nat → List Char → List (String × Json) →
    Option (Json × List Char)
  | 0, _, _ => none
  | Nat.succ fuel, cs, acc =>
    match skipWs cs with
    | '"' :: rest =>
      match parseStringBody rest with
      | none => none
      | some (k, r₁) =>
        match skipWs r₁ with
        | ':' :: r₂ =>
          match parseValue fuel r₂ with
          | none => none
          | some (v, r₃) =>
            let acc' := objInsert acc (String.mk k) v
            match skipWs r₃ with
            | ',' :: r₄ => parseMembers fuel r₄ acc'
            | '}' :: r₄ => some (.obj acc', r₄)
            | _ => none
        | _ => none
    | _ => none

/-- Parse the elements of a JSON array (input positioned at a value). -/
def parseElems : Nat → List Char → List Json → Option (Json × List Char)
  | 0, _, _ => none
  | Nat.succ fuel, cs, acc =>
    match parseValue fuel cs with
    | none => none
    | some (v, r) =>
      match skipWs r with
      | ',' :: r' => parseElems fuel r' (acc ++ [v])
      | ']' :: r' => some (.arr (acc ++ [v]), r')
      | _ => none

end

/-- Parse a whole string as one JSON document, as `json.loads` does: the
document may be surrounded by whitespace and nothing else may follow it. -/
def Json.parse (s : String) : Option Json :=
  match parseValue (s.length + 1) s.data with
  | some (j, rest) => if skipWs rest = [] then some j else none
  | none => none

/-- Escape a character for inclusion in a rendered JSON string literal. -/
def escapeJsonChar (c : Char) : String :=
  if c = '"' then "\\\""
  else if c = '\\' then "\\\\"
  else String.singleton c

mutual

/-- Render a `Json` value back to JSON text (MySQL's display style, with a
space after each comma and colon); used to model `JSON_UNQUOTE` applied to a
non-string value. -/
def Json.render : Json → String
  | .null => "null"
  | .bool true => "true"
  | .bool false => "false"
  | .num lex => lex
  | .str s => "\"" ++ String.join (s.data.map escapeJsonChar) ++ "\""
  | .arr vs => "[" ++ Json.renderList vs ++ "]"
  | .obj kvs => "\x7b" ++ Json.renderFields kvs ++ "\x7d"

/-- Render array elements, comma separated. -/
def Json.renderList : List Json → String
  | [] => ""
  | [v] => Json.render v
  | v :: vs => Json.render v ++ ", " ++ Json.renderList vs

/-- Render object fields, comma separated. -/
def Json.renderFields : List (String × Json) → String
  | [] => ""
  | [(k, v)] => "\"" ++ k ++ "\": " ++ Json.render v
  | (k, v) :: kvs => "\"" ++ k ++ "\": " ++ Json.render v ++ ", " ++
      Json.renderFields kvs

end

/-! ## The two attribute decoders

`src/main.py` reads a stored custom-attribute value in two different ways:

* at display time (`list_tickets` lines 386-397 and `get_ticket` lines
  478-486): `json.loads` the raw value; a non-empty `dict` yields its first
  value in insertion order, any other parsed document is used as is, and a
  parse failure falls back to the raw string;
* at filter time (`list_tickets` line 313): the SQL expression
  `COALESCE(JSON_UNQUOTE(JSON_EXTRACT(JSON_EXTRACT(value, '$.*'), '$[0]')),
  value)`, whose result is the string the `LIKE` pattern is matched against.
-/

/-- Display-time decoder, translated from the `try: parsed_val =
json.loads(cf['value']) ...` block shared by `list_tickets` and
`get_ticket`.  The raw-string fallback is represented as `Json.str raw`,
matching the Python value semantics (both branches produce a `str`). -/
def decodeCustomFieldValue (raw : String) : Json :=
  match Json.parse raw with
  | some parsedVal =>
    match parsedVal with
    | .obj (kv :: _) => kv.2
    | other => other
  | none => .str raw

/-- `JSON_EXTRACT(doc, '$.*')`: on a JSON object with at least one member
the matched values are autowrapped into an array; on anything else the
wildcard matches nothing and the result is SQL `NULL`.  Object member order
is modelled as insertion order. -/
def jsonExtractStar : Json → Option Json
  | .obj [] => none
  | .obj kvs => some (.arr (kvs.map Prod.snd))
  | _ => none

/-- `JSON_EXTRACT(doc, '$[0]')`: first element of an array; a non-array
document is treated as a one-element array; an empty array gives `NULL`. -/
def jsonExtractFirst : Json → Option Json
  | .arr [] => none
  | .arr (v :: _) => some v
  | v => some v

/-- `JSON_UNQUOTE`: a JSON string gives its contents, any other value its
JSON text. -/
def jsonUnquote : Json → String
  | .str s => s
  | v => v.render

/-- Filter-time decoder: the SQL expression from `list_tickets` line 313.
An unparseable stored value makes the extraction yield `NULL` and the
`COALESCE` fall back to the raw value, as the code's comment describes, and
`NULL` propagates through the `JSON_EXTRACT`/`JSON_UNQUOTE` chain. -/
def filterDecode (raw : String) : String :=
  match Json.parse raw with
  | none => raw
  | some doc =>
    match jsonExtractStar doc with
    | none => raw
    | some arr =>
      match jsonExtractFirst arr with
      | none => raw
      | some v => jsonUnquote v

/-- The decode rule as worded by the spec (section 4.2 / claim C3): parse;
a non-empty keyed object yields the value of its first key in insertion
order; any other parsed document is used as is; a parse failure keeps the
raw string. -/
def specValueDecoder (raw : String) : Json :=
  match Json.parse raw with
  | some (.obj ((_, v) :: _)) => v
  | some j => j
  | none => .str raw

/-! ## SQL `LIKE` matching

The custom-field filter compares the decoded stored value against the
pattern `%token%` (`list_tickets` lines 313-314).  `likeMatch p s` models
SQL `s LIKE p` with the `%` (any sequence) and `_` (any one character)
wildcards; the pattern must cover the whole string. -/

/-- All suffixes of a list, longest first (the list itself down to `[]`). -/
def suffixes : List Char → List (List Char)
  | [] => [[]]
  | c :: s' => (c :: s') :: suffixes s'

/-- SQL `LIKE`: `likeMatch p s` is true iff pattern `p` matches the whole
string `s`, where `%` matches any sequence of characters and `_` matches
exactly one character (a `%` consumes some prefix, so the rest of the
pattern must match some suffix). -/
def likeMatch : List Char → List Char → Bool
  | [], s => s.isEmpty
  | p :: ps, s =>
    if p = '%' then (suffixes s).any (fun s' => likeMatch ps s')
    else
      match s with
      | [] => false
      | c :: s' => (p == '_' || p == c) && likeMatch ps s'

/-- The pattern the code builds for a search token:
`custom_field_params[param_name_val] = f"%{value}%"`. -/
def likePattern (tok : String) : List Char :=
  '%' :: tok.data ++ ['%']

/-- `tok` occurs contiguously inside `s`. -/
def isSubstr (tok s : List Char) : Bool :=
  (suffixes s).any (fun s' => tok.isPrefixOf s')

/-- A token is free of `LIKE` metacharacters. -/
def wildcardFree (tok : String) : Bool :=
  tok.data.all fun c => !(c == '%' || c == '_')

/-- The suffixes of `s` are exactly its `drop`s. -/
theorem suffixes_any_iff (p : List Char → Bool) (s : List Char) :
    (suffixes s).any p = true ↔ ∃ k, p (s.drop k) = true := by
  induction s with
  | nil =>
    constructor
    · intro h
      exact ⟨0, by simpa [suffixes] using h⟩
    · rintro ⟨k, hk⟩
      simp only [List.drop_nil] at hk
      simp [suffixes, hk]
  | cons c s' ih =>
    simp only [suffixes, List.any_cons, Bool.or_eq_true, ih]
    constructor
    · rintro (h | ⟨k, hk⟩)
      · exact ⟨0, h⟩
      · exact ⟨k + 1, hk⟩
    · rintro ⟨k, hk⟩
      cases k with
      | zero => exact Or.inl hk
      | succ k' => exact Or.inr ⟨k', hk⟩

/-- A wildcard-free token followed by `%` matches exactly the strings the
token is a prefix of. -/
theorem likeMatch_append_percent (tok : List Char)
    (hw : ∀ c ∈ tok, ¬(c = '%' ∨ c = '_')) (s : List Char) :
    likeMatch (tok ++ ['%']) s = tok.isPrefixOf s := by
  induction tok generalizing s with
  | nil =>
    have h1 : (suffixes s).any (fun s' => likeMatch [] s') = true :=
      (suffixes_any_iff _ s).mpr ⟨s.length, by simp [likeMatch]⟩
    show (suffixes s).any (fun s' => likeMatch [] s') =
      ([] : List Char).isPrefixOf s
    rw [h1]
    cases s <;> rfl
  | cons c tok' ih =>
    have hc : ¬(c = '%' ∨ c = '_') := hw c (List.mem_cons_self c tok')
    have hcp : ¬(c = '%') := fun h => hc (Or.inl h)
    have hcu : ¬(c = '_') := fun h => hc (Or.inr h)
    have hw' : ∀ x ∈ tok', ¬(x = '%' ∨ x = '_') := fun x hx =>
      hw x (List.mem_cons_of_mem c hx)
    cases s with
    | nil => simp [likeMatch, if_neg hcp, List.isPrefixOf]
    | cons b s' =>
      simp only [List.cons_append, likeMatch, if_neg hcp, List.isPrefixOf,
        ih hw' s']
      have : (c == '_') = false := by simpa using hcu
      simp only [this, Bool.false_or]
      rw [List.append_eq, ih hw' s']

/-- For a token without `LIKE` metacharacters, the pattern `%token%`
matches a string iff the token occurs in it as a substring. -/
theorem likeMatch_pattern_iff_substr (tok : String) (hw : wildcardFree tok)
    (s : List Char) :
    likeMatch (likePattern tok) s = true ↔ isSubstr tok.data s = true := by
  have hw' : ∀ c ∈ tok.data, ¬(c = '%' ∨ c = '_') := by
    intro c hc
    have := List.all_eq_true.mp hw c hc
    simpa [not_or] using this
  have hlp : likeMatch (likePattern tok) s =
      (suffixes s).any (fun s' => likeMatch (tok.data ++ ['%']) s') := by
    simp [likePattern, likeMatch]
  rw [hlp, isSubstr, suffixes_any_iff, suffixes_any_iff]
  constructor
  · rintro ⟨k, hk⟩
    rw [likeMatch_append_percent tok.data hw'] at hk
    exact ⟨k, hk⟩
  · rintro ⟨k, hk⟩
    refine ⟨k, ?_⟩
    rw [likeMatch_append_percent tok.data hw']
    exact hk

/-! ## Ticket-number mask rendering

Translation of the formatting part of `_generate_ticket_number`
(`src/main.py` lines 561-581).  The current date is an input (the code
reads it from `datetime.now()`), and the post-increment counter value
`next_seq` is an input (the code reads it from the sequence table). -/

/-- Python `str.replace(old, new)`: replace every non-overlapping occurrence
of `old`, scanning left to right.  The fuel argument is the length of the
remaining input, which strictly bounds the recursion because `old` is
non-empty at every call site. -/
def replaceAllAux : Nat → List Char → List Char → List Char → List Char
  | 0, s, _, _ => s
  | Nat.succ fuel, s, old, new =>
    match s with
    | [] => []
    | c :: rest =>
      if old ≠ [] ∧ old.isPrefixOf (c :: rest) then
        new ++ replaceAllAux fuel ((c :: rest).drop old.length) old new
      else c :: replaceAllAux fuel rest old new

/-- Python `s.replace(old, new)` on strings. -/
def strReplace (s old new : String) : String :=
  String.mk (replaceAllAux s.data.length s.data old.data new.data)

/-- Python `str.zfill(width)`: left-fill with zeros to `width`, keeping a
leading sign prefix in place. -/
def zfill (s : String) (width : Nat) : String :=
  if width ≤ s.length then s
  else
    let pad := List.replicate (width - s.length) '0'
    match s.data with
    | '+' :: rest => String.mk ('+' :: (pad ++ rest))
    | '-' :: rest => String.mk ('-' :: (pad ++ rest))
    | l => String.mk (pad ++ l)

/-- The date fragments `datetime.now().strftime(...)` supplies to the mask:
2-digit year, 4-digit year, month, day. -/
structure DateParts where
  y2 : String
  y4 : String
  m : String
  d : String

/-- Step 1 of the mask rendering: substitute the date tokens, in the
insertion order of the `replacements` dict (`%y`, `%Y`, `%m`, `%d`). -/
def substDateTokens (mask : String) (now : DateParts) : String :=
  strReplace (strReplace (strReplace (strReplace mask "%y" now.y2)
    "%Y" now.y4) "%m" now.m) "%d" now.d

/-- Step 2: if the mask contains `#`, count all `#` characters and replace
the contiguous run of that full length by the zero-filled counter. -/
def substHashes (mask : String) (nextSeq : Nat) : String :=
  if mask.data.contains '#' then
    let numHashes := mask.data.count '#'
    strReplace mask (String.mk (List.replicate numHashes '#'))
      (zfill (toString nextSeq) numHashes)
  else mask

/-- Step 3: if the mask contains `%SEQ`, replace it by the unpadded
counter. -/
def substSeqMarker (mask : String) (nextSeq : Nat) : String :=
  if isSubstr "%SEQ".data mask.data then strReplace mask "%SEQ" (toString nextSeq)
  else mask

/-- The mask-rendering body of `_generate_ticket_number`, translated
statement by statement. -/
def formatTicketNumber (numberFormat : String) (now : DateParts)
    (nextSeq : Nat) : String :=
  let mask := numberFormat
  let mask := strReplace mask "%y" now.y2
  let mask := strReplace mask "%Y" now.y4
  let mask := strReplace mask "%m" now.m
  let mask := strReplace mask "%d" now.d
  let mask := if mask.data.contains '#' then
      let numHashes := mask.data.count '#'
      strReplace mask (String.mk (List.replicate numHashes '#'))
        (zfill (toString nextSeq) numHashes)
    else mask
  let mask := if isSubstr "%SEQ".data mask.data then
      strReplace mask "%SEQ" (toString nextSeq)
    else mask
  mask

/-- If `old` does not occur in `s`, `replace` leaves `s` unchanged. -/
theorem replaceAllAux_of_not_substr (old new : List Char) :
    ∀ (fuel : Nat) (s : List Char), isSubstr old s = false →
      replaceAllAux fuel s old new = s := by
  intro fuel
  induction fuel with
  | zero => intro s _; rfl
  | succ fuel ih =>
    intro s hs
    cases s with
    | nil => rfl
    | cons c rest =>
      have hsplit : (old.isPrefixOf (c :: rest) || isSubstr old rest) = false := hs
      have h₁ : old.isPrefixOf (c :: rest) = false :=
        (Bool.or_eq_false_iff.mp hsplit).1
      have h₂ : isSubstr old rest = false :=
        (Bool.or_eq_false_iff.mp hsplit).2
      simp only [replaceAllAux]
      rw [if_neg (fun h => by simp [h.2] at h₁), ih rest h₂]

/-! ## Pagination continuation links (`make_url`, `src/utils.py`)

`make_url` rebuilds the current request's URL with substituted
`limit`/`offset`.  A request's query parameters are a list of key/value
pairs (the same key may repeat); `dict(request.query_params)` collapses
that list with Python `dict` semantics before `urlencode` serializes it.
`makeUrlParams` models `make_url` up to URL serialization: it returns the
key/value pairs of the produced URL's query string, in the order
`urlencode` emits them. -/

/-- Python dict assignment `d[k] = v` on an insertion-ordered association
list: an existing key keeps its position and receives the new value, a new
key is appended. -/
def setParam (ps : List (String × String)) (k v : String) :
    List (String × String) :=
  if ps.any (fun p => p.1 == k) then
    ps.map (fun p => if p.1 == k then (k, v) else p)
  else ps ++ [(k, v)]

/-- `dict(request.query_params)`: one entry per key, holding the key's
*last* value, at the position of the key's first occurrence. -/
def dictCollapse (ps : List (String × String)) : List (String × String) :=
  ps.foldl (fun acc p => setParam acc p.1 p.2) []

/-- `make_url`: collapse the original query parameters, then assign
`query_params['limit']` and `query_params['offset']`. -/
def makeUrlParams (ps : List (String × String)) (limit newOffset : Nat) :
    List (String × String) :=
  setParam (setParam (dictCollapse ps) "limit" (toString limit))
    "offset" (toString newOffset)

/-- The last value carried by key `k` in a raw parameter list. -/
def lastVal (ps : List (String × String)) (k : String) : Option String :=
  match ps with
  | [] => none
  | p :: rest =>
    match lastVal rest k with
    | some w => some w
    | none => if p.1 == k then some p.2 else none

/-- Assigning key `k` does not disturb entries with a different key. -/
theorem mem_setParam_ne (ps : List (String × String)) (j v k w : String)
    (h : j ≠ k) : ((j, v) ∈ setParam ps k w) ↔ (j, v) ∈ ps := by
  simp only [setParam]
  split
  · simp only [List.mem_map]
    constructor
    · rintro ⟨⟨pk, pv⟩, hp, hf⟩
      dsimp only at hf
      by_cases hpk : pk == k
      · rw [if_pos hpk] at hf
        exact absurd (congrArg Prod.fst hf).symm (by simpa using h)
      · rw [if_neg hpk] at hf
        exact hf ▸ hp
    · intro hm
      exact ⟨(j, v), hm, by simp [h]⟩
  · simp only [List.mem_append, List.mem_singleton, Prod.mk.injEq]
    constructor
    · rintro (hm | ⟨hjk, -⟩)
      · exact hm
      · exact absurd hjk h
    · exact Or.inl

/-- After assigning key `k` value `w`, the pair `(k, w)` is present. -/
theorem mem_setParam_self (ps : List (String × String)) (k w : String) :
    (k, w) ∈ setParam ps k w := by
  simp only [setParam]
  split
  case isTrue ha =>
    obtain ⟨p, hp, hpk⟩ := List.any_eq_true.mp ha
    exact List.mem_map.mpr ⟨p, hp, by rw [if_pos hpk]⟩
  case isFalse ha => simp

/-- A pair with the assigned key is present with exactly the assigned
value. -/
theorem mem_setParam_eq (ps : List (String × String)) (k v w : String) :
    ((k, v) ∈ setParam ps k w) ↔ v = w := by
  constructor
  · intro hm
    simp only [setParam] at hm
    split at hm
    case isTrue ha =>
      obtain ⟨⟨pk, pv⟩, hp, hf⟩ := List.mem_map.mp hm
      dsimp only at hf
      by_cases hpk : pk == k
      · rw [if_pos hpk] at hf
        exact ((Prod.mk.injEq _ _ _ _).mp hf).2.symm ▸ rfl
      · rw [if_neg hpk] at hf
        exact absurd (congrArg Prod.fst hf) (by simpa using hpk)
    case isFalse ha =>
      rcases List.mem_append.mp hm with hm' | hm'
      · exact absurd (List.any_eq_true.mpr ⟨(k, v), hm', by simp⟩) ha
      · simpa using (List.mem_singleton.mp hm')
  · rintro rfl
    exact mem_setParam_self ps k _

/-- Membership in the collapsed dictionary built by folding `setParam`:
a pair is present iff its key's last value in the raw list is its value,
or the key never occurs and the pair was already in the accumulator. -/
theorem mem_foldl_setParam (ps : List (String × String)) :
    ∀ (acc : List (String × String)) (j v : String),
      ((j, v) ∈ ps.foldl (fun a p => setParam a p.1 p.2) acc) ↔
        (lastVal ps j = some v ∨ (lastVal ps j = none ∧ (j, v) ∈ acc)) := by
  induction ps with
  | nil => intro acc j v; simp [lastVal]
  | cons p rest ih =>
    intro acc j v
    obtain ⟨pk, pv⟩ := p
    rw [List.foldl_cons, ih (setParam acc pk pv) j v]
    by_cases hjk : j = pk
    · subst hjk
      cases hl : lastVal rest j with
      | some w => simp [lastVal, hl]
      | none =>
        simp only [lastVal, hl, mem_setParam_eq]
        simp [eq_comm]
    · cases hl : lastVal rest j with
      | some w => simp [lastVal, hl]
      | none =>
        have : (pk == j) = false := by simpa using (Ne.symm hjk)
        simp only [lastVal, hl, mem_setParam_ne acc j v pk pv hjk, this]
        simp

/-! ## Relational model of the listing engine

List-based multiset semantics for the tables `list_tickets`, `list_users`
and `create_ticket` read and write.  An inner join is a nested flat-map
with the `ON` condition as a filter; a left join contributes one
null-extended row when no row matches; the `WHERE` clause is a filter over
the fully joined row. -/

/-- Flat-map used to model SQL joins. -/
def lflat : List α → (α → List β) → List β
  | [], _ => []
  | x :: xs, f => f x ++ lflat xs f

/-- `LEFT JOIN`: all matching rows, or one null-extended row if none. -/
def leftJoin (ms : List β) : List (Option β) :=
  if ms.isEmpty then [none] else ms.map some

/-- `n`-fold product of a list with itself: the row space contributed by
`n` copies of the same join triple (one per custom filter). -/
def kProduct (l : List α) : Nat → List (List α)
  | 0 => [[]]
  | n + 1 => lflat l (fun x => (kProduct l n).map (x :: ·))

/-- `ost_ticket`. -/
structure Ticket where
  ticket_id : Nat
  number : String
  created : Nat
  status_id : Nat
  topic_id : Nat
  dept_id : Nat
  user_id : Nat
  deriving DecidableEq, Repr

/-- `ost_ticket_status`. -/
structure TicketStatus where
  id : Nat
  name : String
  deriving DecidableEq, Repr

/-- `ost_user`. -/
structure User where
  id : Nat
  name : String
  created : Nat
  updated : Nat
  deriving DecidableEq, Repr

/-- `ost_user_email`. -/
structure UserEmail where
  user_id : Nat
  address : String
  deriving DecidableEq, Repr

/-- `ost_help_topic`. -/
structure HelpTopic where
  topic_id : Nat
  topic : String
  deriving DecidableEq, Repr

/-- `ost_department`. -/
structure Department where
  id : Nat
  name : String
  deriving DecidableEq, Repr

/-- `ost_form_entry`. -/
structure FormEntry where
  id : Nat
  object_id : Nat
  object_type : String
  deriving DecidableEq, Repr

/-- `ost_form_entry_values`. -/
structure FormEntryValue where
  entry_id : Nat
  field_id : Nat
  value : String
  deriving DecidableEq, Repr

/-- `ost_form_field`. -/
structure FormField where
  id : Nat
  name : String
  deriving DecidableEq, Repr

/-- `ost_thread`. -/
structure Thread where
  id : Nat
  object_id : Nat
  object_type : String
  created : Nat
  deriving DecidableEq, Repr

/-- `ost_thread_entry`. -/
structure ThreadEntry where
  thread_id : Nat
  entry_type : String
  body : String
  poster : String
  created : Nat
  deriving DecidableEq, Repr

/-- `ost_sequence`. -/
structure SeqRow where
  id : Nat
  name : String
  next : Nat
  deriving DecidableEq, Repr

/-- The database state visible to the listing and creation endpoints.
`created`/`updated` timestamps are ordinals; `now` is the value `NOW()`
yields; the `next*RowId` fields model the `AUTO_INCREMENT` counters that
produce `lastrowid`/`LAST_INSERT_ID()` for inserts. -/
structure DB where
  tickets : List Ticket
  ticket_statuses : List TicketStatus
  users : List User
  user_emails : List UserEmail
  help_topics : List HelpTopic
  departments : List Department
  form_entries : List FormEntry
  form_entry_values : List FormEntryValue
  form_fields : List FormField
  threads : List Thread
  thread_entries : List ThreadEntry
  sequences : List SeqRow
  config : List (String × String)
  nextTicketRowId : Nat
  nextThreadRowId : Nat
  now : Nat
  deriving DecidableEq, Repr

/-- The inputs of a `/tickets` listing call.  An empty list or empty string
models an absent (or Python-falsy) parameter; `customFilters` pairs each
custom-filter name with the raw occurrence values `getlist` returns. -/
structure ListTicketsQuery where
  status_id : List Nat
  topic_id : List Nat
  dept_id : List Nat
  email : String
  customFilters : List (String × List String)
  limit : Nat
  offset : Nat
  deriving DecidableEq, Repr

/-- The characters Python `str.strip()` removes: the ASCII whitespace and
separator controls plus every Unicode whitespace code point (NEL, NBSP,
Ogham space, the U+2000 range, line/paragraph separators, narrow and
medium spaces, ideographic space). -/
def isPythonSpace (c : Char) : Bool :=
  (9 ≤ c.toNat && c.toNat ≤ 13) || c = ' ' ||
    (28 ≤ c.toNat && c.toNat ≤ 31) || c.toNat = 133 || c.toNat = 160 ||
    c.toNat = 5760 || (8192 ≤ c.toNat && c.toNat ≤ 8202) ||
    c.toNat = 8232 || c.toNat = 8233 || c.toNat = 8239 || c.toNat = 8287 ||
    c.toNat = 12288

/-- Python `s.strip()`. -/
def pyStrip (s : List Char) : List Char :=
  ((s.dropWhile isPythonSpace).reverse.dropWhile isPythonSpace).reverse

/-- Python `s.split(sep)` for a one-character separator: empty parts are
kept, the empty string splits to one empty part. -/
def splitOnChar (sep : Char) : List Char → List (List Char)
  | [] => [[]]
  | c :: cs =>
    let r := splitOnChar sep cs
    if c = sep then [] :: r
    else
      match r with
      | [] => [[c]]
      | g :: gs => (c :: g) :: gs

/-- The flattening of a custom filter's raw values (`list_tickets` line
303): split each occurrence on commas and keep the unstripped items whose
`strip()` is non-empty. -/
def flatTokens (searchValues : List String) : List String :=
  (lflat searchValues fun v => (splitOnChar ',' v.data).map String.mk).filter
    fun item => !(pyStrip item.data).isEmpty

/-- The join triple `(ost_form_entry, ost_form_entry_values,
ost_form_field)` for one ticket, with the `ON` conditions of
`custom_field_joins` applied. -/
def ticketTriples (db : DB) (t : Ticket) :
    List (FormEntry × FormEntryValue × FormField) :=
  lflat (db.form_entries.filter fun fe =>
      fe.object_id == t.ticket_id && fe.object_type == "T") fun fe =>
    lflat (db.form_entry_values.filter fun fev => fev.entry_id == fe.id)
      fun fev =>
      (db.form_fields.filter fun ff => ff.id == fev.field_id).map fun ff =>
        (fe, fev, ff)

/-- The `WHERE` conjunct one custom filter contributes: field name matches
and the decoded value is `LIKE '%token%'` for at least one token.  A
filter whose flattened token list is empty never reaches this condition:
the code then emits an empty `OR` disjunction — ill-formed SQL that fails
the whole request — which `listTicketsResult` and
`ticketCustomFilterResult` surface as an error. -/
def customFieldCond (fieldName : String) (searchValues : List String)
    (tr : FormEntry × FormEntryValue × FormField) : Bool :=
  tr.2.2.name == fieldName &&
    (flatTokens searchValues).any fun tok =>
      likeMatch (likePattern tok) (filterDecode tr.2.1.value).data

/-- The conjunction of all custom-filter conjuncts, each applied to its
positionally aliased join triple. -/
def customFiltersCond :
    List (String × List String) →
      List (FormEntry × FormEntryValue × FormField) → Bool
  | [], [] => true
  | f :: fs, tr :: trs => customFieldCond f.1 f.2 tr && customFiltersCond fs trs
  | _, _ => false

/-- The fixed-column `WHERE` conjuncts of `list_tickets` (`IN` filters and
owner e-mail equality; absent filters contribute nothing). -/
def fixedFiltersCond (q : ListTicketsQuery) (t : Ticket) (ue : UserEmail) :
    Bool :=
  (q.status_id.isEmpty || q.status_id.contains t.status_id) &&
  (q.topic_id.isEmpty || q.topic_id.contains t.topic_id) &&
  (q.dept_id.isEmpty || q.dept_id.contains t.dept_id) &&
  (q.email == "" || ue.address == q.email)

/-- The custom-filter join rows surviving the complete `WHERE` clause, for
one `(ticket, user-email)` combination. -/
def comboRows (db : DB) (q : ListTicketsQuery) (t : Ticket) (ue : UserEmail) :
    List (List (FormEntry × FormEntryValue × FormField)) :=
  (kProduct (ticketTriples db t) q.customFilters.length).filter fun trs =>
    fixedFiltersCond q t ue && customFiltersCond q.customFilters trs

/-- The joined row set of `count_sql` (`list_tickets` lines 333-340):
tickets joined to users, e-mails and the custom-filter triples, under the
`WHERE` clause.  `COUNT(t.ticket_id)` counts these rows. -/
def countRows (db : DB) (q : ListTicketsQuery) :
    List (Ticket × User × UserEmail ×
      List (FormEntry × FormEntryValue × FormField)) :=
  lflat db.tickets fun t =>
    lflat (db.users.filter fun u => t.user_id == u.id) fun u =>
      lflat (db.user_emails.filter fun ue => u.id == ue.user_id) fun ue =>
        (comboRows db q t ue).map fun trs => (t, u, ue, trs)

/-- `total_records`. -/
def totalRecords (db : DB) (q : ListTicketsQuery) : Nat :=
  (countRows db q).length

/-- A selected row of `data_sql`. -/
structure TicketRow where
  ticket_id : Nat
  number : String
  created : Nat
  status_id : Nat
  status_name : String
  topic_id : Nat
  topic_name : Option String
  dept_id : Nat
  dept_name : Option String
  user_id : Nat
  user_name : String
  user_email : String
  deriving DecidableEq, Repr

/-- The joined row set of `data_sql` (`list_tickets` lines 344-358) before
`ORDER BY`/`LIMIT`: unlike `count_sql` it also inner-joins
`ost_ticket_status` and left-joins `ost_help_topic` and `ost_department`. -/
def dataRows (db : DB) (q : ListTicketsQuery) : List TicketRow :=
  lflat db.tickets fun t =>
    lflat (db.ticket_statuses.filter fun s => t.status_id == s.id) fun s =>
      lflat (db.users.filter fun u => t.user_id == u.id) fun u =>
        lflat (db.user_emails.filter fun ue => u.id == ue.user_id) fun ue =>
          lflat (leftJoin (db.help_topics.filter fun ht =>
              t.topic_id == ht.topic_id)) fun ht =>
            lflat (leftJoin (db.departments.filter fun d =>
                t.dept_id == d.id)) fun d =>
              (comboRows db q t ue).map fun _ =>
                { ticket_id := t.ticket_id, number := t.number,
                  created := t.created, status_id := t.status_id,
                  status_name := s.name, topic_id := t.topic_id,
                  topic_name := ht.map (·.topic), dept_id := t.dept_id,
                  dept_name := d.map (·.name), user_id := t.user_id,
                  user_name := u.name, user_email := ue.address }

/-- Insertion into a sorted list (stable insertion sort models the SQL
`ORDER BY`; only the length and membership of the result matter to the
claims). -/
def insertSorted (le : α → α → Bool) (x : α) : List α → List α
  | [] => [x]
  | y :: ys => if le x y then x :: y :: ys else y :: insertSorted le x ys

/-- Insertion sort by a boolean comparison. -/
def sortBy (le : α → α → Bool) : List α → List α
  | [] => []
  | x :: xs => insertSorted le x (sortBy le xs)

/-- `ORDER BY t.created DESC, t.ticket_id DESC`. -/
def ticketRowLe (a b : TicketRow) : Bool :=
  b.created < a.created || (a.created == b.created && b.ticket_id ≤ a.ticket_id)

/-- The page `data_sql` returns: ordered rows, `OFFSET` dropped, `LIMIT`
taken. -/
def pageRows (db : DB) (q : ListTicketsQuery) : List TicketRow :=
  ((sortBy ticketRowLe (dataRows db q)).drop q.offset).take q.limit

/-- One item of the `/tickets` response.  `custom_fields = none` models the
`custom_fields` key being absent from the returned dict, `some m` models it
being present with map `m`. -/
structure TicketItem where
  ticket_id : Nat
  number : String
  created : Nat
  status_id : Nat
  status_name : String
  topic_id : Nat
  topic_name : Option String
  dept_id : Nat
  dept_name : Option String
  user_id : Nat
  user_name : String
  user_email : String
  custom_fields : Option (List (String × Json))
  deriving DecidableEq, Repr

/-- `dict(r)` for a page row: every selected column, no `custom_fields`
key yet. -/
def mkTicketItem (r : TicketRow) : TicketItem :=
  { ticket_id := r.ticket_id, number := r.number, created := r.created,
    status_id := r.status_id, status_name := r.status_name,
    topic_id := r.topic_id, topic_name := r.topic_name,
    dept_id := r.dept_id, dept_name := r.dept_name, user_id := r.user_id,
    user_name := r.user_name, user_email := r.user_email,
    custom_fields := none }

/-- The batched custom-field fetch (`list_tickets` lines 367-382): one
`(ticket_id, field name, raw value)` row per form-entry value of the page's
tickets. -/
def customFieldRows (db : DB) (ids : List Nat) :
    List (Nat × String × String) :=
  lflat (db.form_entries.filter fun fe =>
      ids.contains fe.object_id && fe.object_type == "T") fun fe =>
    lflat (db.form_entry_values.filter fun fev => fev.entry_id == fe.id)
      fun fev =>
      (db.form_fields.filter fun ff => ff.id == fev.field_id).map fun ff =>
        (fe.object_id, ff.name, fev.value)

/-- Python dict assignment on a name-to-value field map. -/
def fieldMapInsert (fields : List (String × Json)) (k : String) (v : Json) :
    List (String × Json) :=
  if fields.any (fun p => p.1 == k) then
    fields.map fun p => if p.1 == k then (k, v) else p
  else fields ++ [(k, v)]

/-- `custom_fields_map`: initialized with an empty dict per page ticket id
(`{tid: {} for tid in ticket_ids}`), then filled row by row with the
decoded values (`list_tickets` lines 385-397). -/
def customFieldsMap (db : DB) (ids : List Nat) :
    List (Nat × List (String × Json)) :=
  let init := ids.foldl (fun m tid =>
    if m.any (fun p => p.1 == tid) then m else m ++ [(tid, [])]) []
  (customFieldRows db ids).foldl (fun m row =>
    m.map fun p =>
      if p.1 == row.1 then
        (p.1, fieldMapInsert p.2 row.2.1 (decodeCustomFieldValue row.2.2))
      else p) init

/-- The items of the `/tickets` response: page rows as dicts, then — when
the page is non-empty — each item gets its `custom_fields` entry from the
batched map (`custom_fields_map.get(tid, {})`). -/
def listTicketsItems (db : DB) (q : ListTicketsQuery) : List TicketItem :=
  let results := pageRows db q
  let finalItems := results.map mkTicketItem
  let ticketIds := results.map (·.ticket_id)
  if ticketIds.isEmpty then finalItems
  else
    let cfMap := customFieldsMap db ticketIds
    finalItems.map fun it =>
      let fields := ((cfMap.filter (fun p => p.1 == it.ticket_id)).head?.map
        (·.2)).getD []
      { it with custom_fields := some fields }

/-- The inputs of a `/users` listing call (`email = ""` models an absent or
falsy e-mail filter). -/
structure ListUsersQuery where
  email : String
  limit : Nat
  offset : Nat
  deriving DecidableEq, Repr

/-- The joined row set shared by the `/users` count and data queries:
users joined to their e-mails under the optional e-mail equality filter. -/
def usersJoinRows (db : DB) (email : String) : List (User × UserEmail) :=
  lflat db.users fun u =>
    ((db.user_emails.filter fun ue => u.id == ue.user_id).filter fun ue =>
      email == "" || ue.address == email).map fun ue => (u, ue)

/-- One item of the `/users` response: `dict(r)` over the selected columns.
The row dict never receives a `custom_fields` key, which `custom_fields =
none` models. -/
structure UserListItem where
  id : Nat
  name : String
  email : String
  created : Nat
  updated : Nat
  custom_fields : Option (List (String × Json))
  deriving DecidableEq, Repr

/-- `ORDER BY u.created DESC, u.id DESC`. -/
def userRowLe (a b : User × UserEmail) : Bool :=
  b.1.created < a.1.created || (a.1.created == b.1.created && b.1.id ≤ a.1.id)

/-- The items of the `/users` response (`list_users` lines 179-205). -/
def listUsersItems (db : DB) (q : ListUsersQuery) : List UserListItem :=
  (((sortBy userRowLe (usersJoinRows db q.email)).drop q.offset).take
    q.limit).map fun r =>
    { id := r.1.id, name := r.1.name, email := r.2.address,
      created := r.1.created, updated := r.1.updated, custom_fields := none }

/-- Failure of a compiled listing query.  `invalidSyntax` is the error
MySQL raises when the emitted SQL is ill-formed. -/
inductive SqlError where
  | invalidSyntax
  deriving DecidableEq, Repr

/-- The compiled `WHERE` clause is well-formed SQL iff every custom
filter's flattened token list is non-empty: with no tokens the code builds
`" OR ".join([])`, emitting the conjunct `(ff.name = :p AND ())`, which is
a SQL syntax error. -/
def customFiltersWellFormed (filters : List (String × List String)) : Bool :=
  filters.all fun f => !(flatTokens f.2).isEmpty

/-- The outcome of a `/tickets` listing call: when some custom filter
contributes an empty `LIKE` disjunction the count query already fails with
a syntax error and the request errors; otherwise the call returns the
reported total and the page items. -/
def listTicketsResult (db : DB) (q : ListTicketsQuery) :
    Except SqlError (Nat × List TicketItem) :=
  if customFiltersWellFormed q.customFilters then
    Except.ok (totalRecords db q, listTicketsItems db q)
  else Except.error SqlError.invalidSyntax

/-! ### Ticket creation (`create_ticket`, `_generate_ticket_number`) -/

/-- `config.get(key, default)` over the dict built from the `ost_config`
rows (`{row['key']: row['value']}`; a repeated key keeps the last row). -/
def configGet (db : DB) (k : String) : Option String :=
  ((db.config.filter fun p => p.1 == k).getLast?).map (·.2)

/-- `UPDATE ost_sequence SET next = LAST_INSERT_ID(next + 1) WHERE name =
:seq_name` followed by `SELECT LAST_INSERT_ID()`: every matching row is
advanced, and the read value is the `next + 1` assigned on the last row
updated; with no matching row the update is a no-op and the connection's
previous insert id (none here) is read. -/
def advanceSequence (rows : List SeqRow) (nm : String) :
    List SeqRow × Option Nat :=
  (rows.map fun r => if r.name == nm then { r with next := r.next + 1 } else r,
   ((rows.filter fun r => r.name == nm).getLast?).map fun r => r.next + 1)

/-- `_generate_ticket_number` (`src/main.py` lines 540-581): read the
numbering configuration (defaults: sequence id 1, mask `%SEQ`), resolve the
sequence name (default `ticket_number`), advance it, and render the mask.
A non-numeric configured id is modelled as MySQL's string-to-integer
coercion to 0; a missing `LAST_INSERT_ID` reads 0. -/
def generateTicketNumber (db : DB) (now : DateParts) : DB × String :=
  let sequenceId : Nat := match configGet db "ticket_sequence_id" with
    | some s => (s.toNat?).getD 0
    | none => 1
  let numberFormat : String :=
    (configGet db "ticket_number_format").getD "%SEQ"
  let seqName : String :=
    (((db.sequences.filter fun r => r.id == sequenceId).head?).map
      (·.name)).getD "ticket_number"
  let res := advanceSequence db.sequences seqName
  let nextSeq := res.2.getD 0
  ({ db with sequences := res.1 }, formatTicketNumber numberFormat now nextSeq)

/-- Errors `create_ticket` surfaces: the 400 owner rejection and the opaque
500 for unexpected storage failures. -/
inductive CreateError where
  | invalidUser (userId : Nat)
  | internal
  deriving DecidableEq, Repr

/-- The `TicketCreate` request model (`src/models.py`). -/
structure TicketCreate where
  user_id : Nat
  subject : String
  message : String
  topic_id : Option Nat
  dept_id : Option Nat
  deriving DecidableEq, Repr

/-- The creation response (`{"ticket_id": tid, "number": t_num}`). -/
structure TicketCreateResult where
  ticket_id : Nat
  number : String
  deriving DecidableEq, Repr

/-- `create_ticket` (`src/main.py` lines 492-537) as one transaction on the
database state.  Statements run in order: (1) the owner-validation select,
(2) the sequence advance inside `_generate_ticket_number`, (3) the ticket
insert, (4) the thread insert, (5) the thread-entry insert.  `failAt k`
makes statement `k` raise an unexpected storage error; every raised error —
the 400 owner rejection or a storage failure — executes `trans.rollback()`,
so the original state is returned unchanged. -/
def create_ticket (db : DB) (ticket : TicketCreate) (now : DateParts)
    (failAt : Option Nat) : DB × Except CreateError TicketCreateResult :=
  if failAt = some 1 then (db, .error .internal)
  else
    match (db.users.filter fun u => u.id == ticket.user_id).head? with
    | none => (db, .error (.invalidUser ticket.user_id))
    | some _ =>
      if failAt = some 2 then (db, .error .internal)
      else
        let gen := generateTicketNumber db now
        let db₁ := gen.1
        let tNum := gen.2
        if failAt = some 3 then (db, .error .internal)
        else
          let insertTopicId := ticket.topic_id.getD 1
          let insertDeptId := ticket.dept_id.getD 1
          let tid := db₁.nextTicketRowId
          let newTicket : Ticket :=
            ⟨tid, tNum, db₁.now, 1, insertTopicId, insertDeptId,
              ticket.user_id⟩
          let db₂ := { db₁ with
            tickets := db₁.tickets ++ [newTicket],
            nextTicketRowId := tid + 1 }
          if failAt = some 4 then (db, .error .internal)
          else
            let thid := db₂.nextThreadRowId
            let newThread : Thread := ⟨thid, tid, "T", db₂.now⟩
            let db₃ := { db₂ with
              threads := db₂.threads ++ [newThread],
              nextThreadRowId := thid + 1 }
            if failAt = some 5 then (db, .error .internal)
            else
              let newEntry : ThreadEntry :=
                ⟨thid, "M", ticket.message, "API", db₃.now⟩
              let db₄ := { db₃ with
                thread_entries := db₃.thread_entries ++ [newEntry] }
              (db₄, .ok { ticket_id := tid, number := tNum })

/-! ### Cardinality lemmas for the joined row sets -/

/-- Length of a join is the sum of the lengths of its branches. -/
theorem length_lflat (l : List α) (f : α → List β) :
    (lflat l f).length = ((l.map fun x => (f x).length).sum) := by
  induction l with
  | nil => rfl
  | cons x xs ih => simp [lflat, ih]

/-- Joins over the same base with branchwise equal cardinalities have equal
cardinality. -/
theorem length_lflat_congr (l : List α) (f : α → List β) (g : α → List γ)
    (h : ∀ x ∈ l, (f x).length = (g x).length) :
    (lflat l f).length = (lflat l g).length := by
  induction l with
  | nil => rfl
  | cons x xs ih =>
    simp only [lflat, List.length_append]
    rw [h x (List.mem_cons_self x xs),
      ih fun y hy => h y (List.mem_cons_of_mem x hy)]

/-- A join whose branches all have cardinality `c`. -/
theorem length_lflat_const (l : List α) (f : α → List β) (c : Nat)
    (h : ∀ x ∈ l, (f x).length = c) :
    (lflat l f).length = l.length * c := by
  induction l with
  | nil => simp [lflat]
  | cons x xs ih =>
    simp only [lflat, List.length_append, List.length_cons]
    rw [h x (List.mem_cons_self x xs),
      ih fun y hy => h y (List.mem_cons_of_mem x hy), Nat.succ_mul,
      Nat.add_comm]

/-- A join over a one-row base keeps the branch cardinality. -/
theorem length_lflat_singleton (l : List α) (f : α → List β) (c : Nat)
    (h : ∀ x ∈ l, (f x).length = c) (hl : l.length = 1) :
    (lflat l f).length = c := by
  rw [length_lflat_const l f c h, hl, Nat.one_mul]

/-- A left join against at most one matching row contributes exactly one
row. -/
theorem length_leftJoin_of_le_one (l : List β) (h : l.length ≤ 1) :
    (leftJoin l).length = 1 := by
  cases l with
  | nil => rfl
  | cons x xs =>
    cases xs with
    | nil => rfl
    | cons y ys => simp at h

/-- Two nested one-row joins around a map leave the mapped cardinality
unchanged. -/
theorem length_lflat_maps (l₁ : List α) (l₂ : List β) (M : List γ)
    (f : α → β → γ → δ) (h₁ : l₁.length = 1) (h₂ : l₂.length = 1) :
    (lflat l₁ fun a => lflat l₂ fun b => M.map (f a b)).length = M.length := by
  refine length_lflat_singleton _ _ _ (fun a _ => ?_) h₁
  refine length_lflat_singleton _ _ _ (fun b _ => ?_) h₂
  exact List.length_map M (f a b)

/-- Insertion leaves a list one longer. -/
theorem length_insertSorted (le : α → α → Bool) (x : α) (l : List α) :
    (insertSorted le x l).length = l.length + 1 := by
  induction l with
  | nil => rfl
  | cons y ys ih =>
    simp only [insertSorted]
    split
    · simp
    · simp [ih]

/-- Sorting preserves length. -/
theorem length_sortBy (le : α → α → Bool) (l : List α) :
    (sortBy le l).length = l.length := by
  induction l with
  | nil => rfl
  | cons x xs ih => simp [sortBy, length_insertSorted, ih]

/-- Under referential integrity of the status join and uniqueness of the
left-join keys, `data_sql` and `count_sql` produce the same number of rows
before pagination. -/
theorem dataRows_length_eq_countRows_length (db : DB) (q : ListTicketsQuery)
    (hs : ∀ t ∈ db.tickets,
      (db.ticket_statuses.filter fun s => t.status_id == s.id).length = 1)
    (hht : ∀ t ∈ db.tickets,
      (db.help_topics.filter fun ht => t.topic_id == ht.topic_id).length ≤ 1)
    (hd : ∀ t ∈ db.tickets,
      (db.departments.filter fun d => t.dept_id == d.id).length ≤ 1) :
    (dataRows db q).length = (countRows db q).length := by
  unfold dataRows countRows
  apply length_lflat_congr
  intro t ht
  have hHT := length_leftJoin_of_le_one _ (hht t ht)
  have hD := length_leftJoin_of_le_one _ (hd t ht)
  refine length_lflat_singleton _ _ _ (fun s _ => ?_) (hs t ht)
  apply length_lflat_congr
  intro u hu
  apply length_lflat_congr
  intro ue hue
  rw [List.length_map]
  exact length_lflat_maps _ _ _ _ hHT hD

/-- The response item list is as long as the page the data query
returned. -/
theorem length_listTicketsItems (db : DB) (q : ListTicketsQuery) :
    (listTicketsItems db q).length = (pageRows db q).length := by
  simp only [listTicketsItems]
  split
  · exact List.length_map _ _
  · simp [List.length_map]

/-! ## Claims C2 and C3: the attribute decoders -/

/-- C3 (confirmed): for every raw stored attribute value the display-time
decoder follows the spec's rule — parse the value; a non-empty object
yields the value of its first key in insertion order; any other parsed
document (scalar, array, empty object, null) is used as is; a parse failure
keeps the raw string.  In particular raw `{"14":"Médis"}` decodes to
`Médis`, raw `"Médis"` decodes to `Médis`, and raw `plain` decodes to
`plain`. -/
theorem decodeCustomFieldValue_follows_spec_rule :
    (∀ raw : String, decodeCustomFieldValue raw = specValueDecoder raw) ∧
    decodeCustomFieldValue "\x7b\"14\":\"Médis\"\x7d" = Json.str "Médis" ∧
    decodeCustomFieldValue "\"Médis\"" = Json.str "Médis" ∧
    decodeCustomFieldValue "plain" = Json.str "plain" := by
  refine ⟨fun raw => ?_, by decide, by decide, by decide⟩
  simp only [decodeCustomFieldValue, specValueDecoder]
  cases h : Json.parse raw with
  | none => rfl
  | some j =>
    cases j with
    | null => rfl
    | bool b => rfl
    | num s => rfl
    | str s => rfl
    | arr vs => rfl
    | obj kvs =>
      cases kvs with
      | nil => rfl
      | cons kv rest => obtain ⟨k, v⟩ := kv; rfl

/-- C2 counterexample: the decode rule applied at filter time and the one
applied at display time do *not* produce the same decoded value for every
raw stored value.  On the JSON-quoted scalar `"Médis"` the SQL filter
expression falls back to the raw value (quotes included, since the `$.*`
wildcard matches nothing outside an object), while the display decoder
returns the unquoted parsed string. -/
theorem filterDecode_display_differ_on_quoted_scalar :
    Json.str (filterDecode "\"Médis\"") ≠
      decodeCustomFieldValue "\"Médis\"" := by
  decide

/-- C2 amended: the filter-time and display-time decode rules agree on raw
values that do not parse as JSON and on singleton JSON objects whose value
is a string (the dropdown-choice shape the code was written for); they
diverge on JSON-quoted scalars, arrays, numbers, empty objects and objects
whose first value is not a string. -/
theorem filterDecode_display_agree_on_plain_and_choice
    (raw : String)
    (h : Json.parse raw = none ∨
      ∃ k s, Json.parse raw = some (Json.obj [(k, Json.str s)])) :
    Json.str (filterDecode raw) = decodeCustomFieldValue raw := by
  rcases h with h | ⟨k, s, h⟩ <;>
    simp [filterDecode, decodeCustomFieldValue, h, jsonExtractStar,
      jsonExtractFirst, jsonUnquote]

/-- Witness for the C2 amended theorem at the dropdown-choice raw value
`{"14":"Médis"}` and at the unparseable raw value `plain`. -/
theorem filterDecode_display_agree_on_plain_and_choice_witness :
    Json.str (filterDecode "\x7b\"14\":\"Médis\"\x7d") =
      decodeCustomFieldValue "\x7b\"14\":\"Médis\"\x7d" ∧
    Json.str (filterDecode "plain") = decodeCustomFieldValue "plain" :=
  ⟨filterDecode_display_agree_on_plain_and_choice "\x7b\"14\":\"Médis\"\x7d"
      (Or.inr ⟨"14", "Médis", by decide⟩),
    filterDecode_display_agree_on_plain_and_choice "plain"
      (Or.inl (by decide))⟩

/-! ## Claims C7 and C10: mask rendering -/

/-- C7 (confirmed): for every mask template and counter value the
identifier is rendered by substituting, in order, (1) the date tokens `%y`,
`%Y`, `%m`, `%d` from the current date, (2) a run of `#` characters by the
counter left-padded with zeros to the run's length, (3) the bare `%SEQ`
marker by the unpadded counter; and mask `TICKET-%SEQ` with counter 7
yields `TICKET-7` while mask `GCE-######` with counter 1 yields
`GCE-000001`. -/
theorem formatTicketNumber_substitution_order :
    (∀ (mask : String) (now : DateParts) (n : Nat),
      formatTicketNumber mask now n =
        substSeqMarker (substHashes (substDateTokens mask now) n) n) ∧
    formatTicketNumber "TICKET-%SEQ" ⟨"26", "2026", "10", "12"⟩ 7 =
      "TICKET-7" ∧
    formatTicketNumber "GCE-######" ⟨"26", "2026", "10", "12"⟩ 1 =
      "GCE-000001" := by
  refine ⟨fun mask now n => rfl, by decide, by decide⟩

/-- C10 (confirmed): when the `#` characters of a mask do not form one
contiguous run, the generator counts all of them and looks for a run of
that full length, finds none, and so replaces none of them: the mask keeps
every `#`, and the counter is embedded only through `%SEQ` when present
(e.g. `##-##-%SEQ` with counter 7 renders to `##-##-7`). -/
theorem substHashes_noop_without_contiguous_run :
    (∀ (mask : String) (n : Nat),
      isSubstr (List.replicate (mask.data.count '#') '#') mask.data = false →
      substHashes mask n = mask) ∧
    formatTicketNumber "##-##-%SEQ" ⟨"26", "2026", "10", "12"⟩ 7 =
      "##-##-7" := by
  constructor
  · intro mask n h
    unfold substHashes
    by_cases hc : mask.data.contains '#'
    · rw [if_pos hc]
      show String.mk (replaceAllAux mask.data.length mask.data
        (List.replicate (mask.data.count '#') '#')
        (zfill (toString n) (mask.data.count '#')).data) = mask
      rw [replaceAllAux_of_not_substr _ _ _ _ h]
    · rw [if_neg hc]
  · decide

/-- Witness for the C10 theorem: the mask `##-##`, whose four `#` marks sit
in two separate runs, is left unchanged by the hash-substitution step. -/
theorem substHashes_noop_without_contiguous_run_witness :
    substHashes "##-##" 7 = "##-##" :=
  substHashes_noop_without_contiguous_run.1 "##-##" 7 (by decide)

/-! ## Claim C5: continuation links -/

/-- C5 counterexample: a continuation reference does *not* preserve every
occurrence of a repeated query parameter.  `dict(request.query_params)`
keeps only the last value of `f`, so the pair `("f", "1")` of the original
call is absent from the rebuilt URL. -/
theorem makeUrlParams_drops_repeated_parameter :
    makeUrlParams [("f", "1"), ("f", "2")] 50 50 =
      [("f", "2"), ("limit", "50"), ("offset", "50")] ∧
    ("f", "1") ∈ [(("f" : String), ("1" : String)), ("f", "2")] ∧
    ("f", "1") ∉ makeUrlParams [("f", "1"), ("f", "2")] 50 50 := by
  decide

/-- C5 amended: a continuation reference preserves every other query
parameter *with its last value only* — a parameter supplied multiple times
keeps just its final occurrence — and substitutes `limit` and `offset`. -/
theorem makeUrlParams_preserves_last_value
    (ps : List (String × String)) (limit newOffset : Nat) (j v : String)
    (hj1 : j ≠ "limit") (hj2 : j ≠ "offset")
    (hv : lastVal ps j = some v) :
    (j, v) ∈ makeUrlParams ps limit newOffset ∧
    ("limit", toString limit) ∈ makeUrlParams ps limit newOffset ∧
    ("offset", toString newOffset) ∈ makeUrlParams ps limit newOffset := by
  unfold makeUrlParams
  refine ⟨?_, ?_, ?_⟩
  · rw [mem_setParam_ne _ _ _ _ _ hj2, mem_setParam_ne _ _ _ _ _ hj1]
    exact (mem_foldl_setParam ps [] j v).mpr (Or.inl hv)
  · rw [mem_setParam_ne _ _ _ _ _ (by decide : ("limit" : String) ≠ "offset")]
    exact mem_setParam_self _ _ _
  · exact mem_setParam_self _ _ _

/-! ## Claim C1: page size versus reported total -/

/-- Ticket used by the pagination claim's databases: `status_id` 5. -/
def exC1Ticket : Ticket := ⟨1, "100", 0, 5, 0, 0, 1⟩

/-- Database in which the ticket's `status_id` has no matching
`ost_ticket_status` row. -/
def exC1DanglingDB : DB where
  tickets := [exC1Ticket]
  ticket_statuses := []
  users := [⟨1, "Alice", 0, 0⟩]
  user_emails := [⟨1, "a@b"⟩]
  help_topics := []
  departments := []
  form_entries := []
  form_entry_values := []
  form_fields := []
  threads := []
  thread_entries := []
  sequences := []
  config := []
  nextTicketRowId := 2
  nextThreadRowId := 1
  now := 0

/-- The same database with the status row present. -/
def exC1HealthyDB : DB := { exC1DanglingDB with ticket_statuses := [⟨5, "Open"⟩] }

/-- The unfiltered first-page listing request with limit 1. -/
def exC1Query : ListTicketsQuery := ⟨[], [], [], "", [], 1, 0⟩

/-- C1 counterexample: the page size does *not* always equal
`min(limit, max(0, total - offset))`.  The count query joins only users and
e-mails, while the page query additionally inner-joins
`ost_ticket_status`; a ticket whose `status_id` has no status row is
counted in `total` (here 1) yet missing from every page (0 items). -/
theorem listTickets_page_size_counterexample :
    1 ≤ exC1Query.limit ∧ exC1Query.limit ≤ 500 ∧
    totalRecords exC1DanglingDB exC1Query = 1 ∧
    (listTicketsItems exC1DanglingDB exC1Query).length = 0 ∧
    (listTicketsItems exC1DanglingDB exC1Query).length ≠
      min exC1Query.limit
        (max 0 (totalRecords exC1DanglingDB exC1Query - exC1Query.offset)) := by
  decide

/-- C1 amended: for a request whose compiled `WHERE` clause is well-formed
(every custom filter carries at least one non-blank token — otherwise the
code emits an empty `OR` disjunction, the SQL is invalid and the request
fails instead of returning a page), and provided every ticket's
`status_id` matches exactly one status row and the help-topic and
department keys are unique (the referential integrity the osTicket schema
guarantees), the call succeeds and the number of items in its page equals
`min(limit, max(0, total - offset))`; the count and page queries share the
`WHERE` predicate, but the page query's extra `ost_ticket_status` inner
join makes the two row sets differ when a status is dangling. -/
theorem listTickets_page_size (db : DB) (q : ListTicketsQuery)
    (_hlim₁ : 1 ≤ q.limit) (_hlim₂ : q.limit ≤ 500)
    (hq : customFiltersWellFormed q.customFilters = true)
    (hs : ∀ t ∈ db.tickets,
      (db.ticket_statuses.filter fun s => t.status_id == s.id).length = 1)
    (hht : ∀ t ∈ db.tickets,
      (db.help_topics.filter fun ht => t.topic_id == ht.topic_id).length ≤ 1)
    (hd : ∀ t ∈ db.tickets,
      (db.departments.filter fun d => t.dept_id == d.id).length ≤ 1) :
    listTicketsResult db q =
      Except.ok (totalRecords db q, listTicketsItems db q) ∧
    (listTicketsItems db q).length =
      min q.limit (totalRecords db q - q.offset) := by
  constructor
  · rw [listTicketsResult, if_pos hq]
  · rw [length_listTicketsItems]
    unfold pageRows
    rw [List.length_take, List.length_drop, length_sortBy,
      dataRows_length_eq_countRows_length db q hs hht hd]
    rfl

/-- Witness for the C1 amended theorem on the healthy database: one ticket,
limit 1, offset 0 — the unfiltered request succeeds and gives exactly one
item. -/
theorem listTickets_page_size_witness :
    listTicketsResult exC1HealthyDB exC1Query =
      Except.ok (totalRecords exC1HealthyDB exC1Query,
        listTicketsItems exC1HealthyDB exC1Query) ∧
    (listTicketsItems exC1HealthyDB exC1Query).length =
      min exC1Query.limit (totalRecords exC1HealthyDB exC1Query -
        exC1Query.offset) :=
  listTickets_page_size exC1HealthyDB exC1Query (by decide) (by decide)
    (by decide) (by decide) (by decide) (by decide)

/-! ## Claim C4: custom-attribute filter semantics -/

/-- A ticket satisfies a custom filter iff some of its attribute join
triples passes the compiled condition (field name equal and decoded value
`LIKE '%token%'` for some token). -/
def ticketMatchesCustomFilter (db : DB) (t : Ticket) (fieldName : String)
    (searchValues : List String) : Bool :=
  (ticketTriples db t).any fun tr => customFieldCond fieldName searchValues tr

/-- The outcome of compiling and evaluating one custom filter against one
ticket.  With an empty flattened token list the code builds
`" OR ".join([])` and emits the conjunct `(ff.name = :p AND ())` — a SQL
syntax error, so the request fails; otherwise the ticket matches iff some
of its attribute triples passes the compiled condition. -/
def ticketCustomFilterResult (db : DB) (t : Ticket) (fieldName : String)
    (searchValues : List String) : Except SqlError Bool :=
  if (flatTokens searchValues).isEmpty then Except.error SqlError.invalidSyntax
  else Except.ok (ticketMatchesCustomFilter db t fieldName searchValues)

/-- Ticket of the custom-filter examples. -/
def exC4Ticket : Ticket := ⟨1, "100", 0, 5, 0, 0, 1⟩

/-- Database with one ticket carrying the custom attribute `f = "abc"`
(stored as the plain, non-JSON string `abc`). -/
def exC4DB : DB where
  tickets := [exC4Ticket]
  ticket_statuses := [⟨5, "Open"⟩]
  users := [⟨1, "Alice", 0, 0⟩]
  user_emails := [⟨1, "a@b"⟩]
  help_topics := []
  departments := []
  form_entries := [⟨10, 1, "T"⟩]
  form_entry_values := [⟨10, 20, "abc"⟩]
  form_fields := [⟨20, "f"⟩]
  threads := []
  thread_entries := []
  sequences := []
  config := []
  nextTicketRowId := 2
  nextThreadRowId := 1
  now := 0

/-- C4 counterexample: matching is *not* plain substring containment.  The
token `a_c` (stored decoded value `abc`) matches through the `LIKE`
wildcard `_`, although `a_c` is not a substring of `abc`. -/
theorem customFilter_wildcard_counterexample :
    ticketMatchesCustomFilter exC4DB exC4Ticket "f" ["a_c"] = true ∧
    filterDecode "abc" = "abc" ∧
    ¬ ∃ tr ∈ ticketTriples exC4DB exC4Ticket, tr.2.2.name = "f" ∧
        ∃ tok ∈ flatTokens ["a_c"],
          isSubstr tok.data (filterDecode tr.2.1.value).data = true := by
  decide

/-- C4 amended: repeated parameters and comma-separated occurrences are
flattened into one token list with blank (empty or whitespace-only,
Unicode included) tokens dropped.  When that list is empty the filter
compiles to an empty `OR` disjunction — invalid SQL — and the request
fails rather than matching anything; when it is non-empty and its tokens
are free of the `LIKE` metacharacters `%` and `_`, the call succeeds and
an entity matches the filter iff the decoded value of one of its
attributes with the filter's name contains at least one token as a
substring (OR across the filter's tokens; distinct filter names contribute
separate conjuncts). -/
theorem customFilter_matches_iff_substring (db : DB) (t : Ticket)
    (fieldName : String) (searchValues : List String)
    (hw : ∀ tok ∈ flatTokens searchValues, wildcardFree tok)
    (hne : (flatTokens searchValues).isEmpty = false) :
    (ticketCustomFilterResult db t fieldName searchValues = Except.ok true ↔
      ∃ tr ∈ ticketTriples db t, tr.2.2.name = fieldName ∧
        ∃ tok ∈ flatTokens searchValues,
          isSubstr tok.data (filterDecode tr.2.1.value).data = true) ∧
    (∀ vals : List String, (flatTokens vals).isEmpty = true →
      ticketCustomFilterResult db t fieldName vals =
        Except.error SqlError.invalidSyntax) ∧
    flatTokens ["A,B"] = ["A", "B"] ∧
    flatTokens ["A", "B,C"] = ["A", "B", "C"] ∧
    flatTokens ["A,,B", " ", "A"] = ["A", "B", "A"] := by
  refine ⟨?_, fun vals hv => by rw [ticketCustomFilterResult, if_pos hv],
    by decide, by decide, by decide⟩
  rw [ticketCustomFilterResult, if_neg (by simp [hne])]
  simp only [Except.ok.injEq]
  simp only [ticketMatchesCustomFilter, customFieldCond, List.any_eq_true,
    Bool.and_eq_true, beq_iff_eq]
  constructor
  · rintro ⟨tr, htr, hname, tok, htok, hlike⟩
    exact ⟨tr, htr, hname, tok, htok,
      (likeMatch_pattern_iff_substr tok (hw tok htok) _).mp hlike⟩
  · rintro ⟨tr, htr, hname, tok, htok, hsub⟩
    exact ⟨tr, htr, hname, tok, htok,
      (likeMatch_pattern_iff_substr tok (hw tok htok) _).mpr hsub⟩

/-- Witness for the C4 amended theorem at the wildcard-free token `b`
against the stored value `abc`. -/
theorem customFilter_matches_iff_substring_witness :
    (ticketCustomFilterResult exC4DB exC4Ticket "f" ["b"] = Except.ok true ↔
      ∃ tr ∈ ticketTriples exC4DB exC4Ticket, tr.2.2.name = "f" ∧
        ∃ tok ∈ flatTokens ["b"],
          isSubstr tok.data (filterDecode tr.2.1.value).data = true) ∧
    ticketCustomFilterResult exC4DB exC4Ticket "f" [""] =
      Except.error SqlError.invalidSyntax ∧
    flatTokens ["A,B"] = ["A", "B"] ∧
    flatTokens ["A", "B,C"] = ["A", "B", "C"] ∧
    flatTokens ["A,,B", " ", "A"] = ["A", "B", "A"] :=
  have h := customFilter_matches_iff_substring exC4DB exC4Ticket "f" ["b"]
    (by decide) (by decide)
  ⟨h.1, h.2.1 [""] (by decide), h.2.2.1, h.2.2.2.1, h.2.2.2.2⟩

/-! ## Claim C8: creation rejection and rollback -/

/-- Database for the creation claim: one user with id 2 and a configured
sequence. -/
def exC8DB : DB where
  tickets := []
  ticket_statuses := [⟨1, "Open"⟩]
  users := [⟨2, "Bob", 0, 0⟩]
  user_emails := [⟨2, "b@c"⟩]
  help_topics := []
  departments := []
  form_entries := []
  form_entry_values := []
  form_fields := []
  threads := []
  thread_entries := []
  sequences := [⟨1, "ticket_number", 41⟩]
  config := [("ticket_sequence_id", "1"), ("ticket_number_format", "%SEQ")]
  nextTicketRowId := 1
  nextThreadRowId := 1
  now := 0

/-- A creation request whose owner id 9 references no user. -/
def exC8Request : TicketCreate := ⟨9, "subject", "message", none, none⟩

/-- C8 (confirmed): a creation request whose owner does not exist is
rejected by the validation select before any write, and every failing
creation — the rejection or a storage failure at any later statement of
the transaction — returns the database unchanged: no ticket, thread,
thread-entry or sequence write from that call remains. -/
theorem create_ticket_rejects_and_rolls_back (db : DB) (tc : TicketCreate)
    (now : DateParts) (failAt : Option Nat) :
    ((∀ u ∈ db.users, u.id ≠ tc.user_id) → failAt = none →
      create_ticket db tc now failAt =
        (db, Except.error (CreateError.invalidUser tc.user_id))) ∧
    (∀ (db' : DB) (e : CreateError),
      create_ticket db tc now failAt = (db', Except.error e) → db' = db) := by
  constructor
  · intro hu hf
    subst hf
    have hnone : (db.users.filter fun u => u.id == tc.user_id).head? = none := by
      rw [List.filter_eq_nil_iff.mpr fun u hum => by simpa using hu u hum]
      rfl
    simp [create_ticket, hnone]
  · intro db' e h
    simp only [create_ticket] at h
    split at h
    · exact ((Prod.mk.injEq _ _ _ _).mp h).1.symm
    · split at h
      · exact ((Prod.mk.injEq _ _ _ _).mp h).1.symm
      · split at h
        · exact ((Prod.mk.injEq _ _ _ _).mp h).1.symm
        · split at h
          · exact ((Prod.mk.injEq _ _ _ _).mp h).1.symm
          · split at h
            · exact ((Prod.mk.injEq _ _ _ _).mp h).1.symm
            · split at h
              · exact ((Prod.mk.injEq _ _ _ _).mp h).1.symm
              · exact absurd ((Prod.mk.injEq _ _ _ _).mp h).2 (by simp)

/-- Witness for the C8 theorem: creating with the non-existent owner 9
returns the 400 rejection and the untouched database. -/
theorem create_ticket_rejects_and_rolls_back_witness :
    create_ticket exC8DB exC8Request ⟨"26", "2026", "10", "12"⟩ none =
      (exC8DB, Except.error (CreateError.invalidUser 9)) :=
  (create_ticket_rejects_and_rolls_back exC8DB exC8Request
    ⟨"26", "2026", "10", "12"⟩ none).1 (by decide) rfl

/-! ## Claim C9: presence of the custom-attribute map -/

/-- Database for the custom-attribute-map claim: one user and one ticket
with no extension values. -/
def exC9DB : DB where
  tickets := [⟨1, "100", 0, 5, 0, 0, 1⟩]
  ticket_statuses := [⟨5, "Open"⟩]
  users := [⟨1, "Alice", 0, 0⟩]
  user_emails := [⟨1, "a@b"⟩]
  help_topics := []
  departments := []
  form_entries := []
  form_entry_values := []
  form_fields := []
  threads := []
  thread_entries := []
  sequences := []
  config := []
  nextTicketRowId := 2
  nextThreadRowId := 1
  now := 0

/-- The unfiltered first-page queries of the C9 examples. -/
def exC9TicketsQuery : ListTicketsQuery := ⟨[], [], [], "", [], 50, 0⟩

/-- C9 counterexample: not every listing response carries the
custom-attribute map.  The `/users` listing builds its items from the
selected columns only and never attaches a `custom_fields` key. -/
theorem usersListing_item_lacks_custom_fields :
    ¬ (∀ it ∈ listUsersItems exC9DB ⟨"", 50, 0⟩,
        it.custom_fields.isSome = true) := by
  decide

/-- C9 amended: every item of the */tickets* listing response carries a
present `custom_fields` map — an empty one when the ticket has no
extension values — while the */users* listing response never carries the
key at all. -/
theorem listing_items_custom_fields_presence :
    (∀ (db : DB) (q : ListTicketsQuery),
      ∀ it ∈ listTicketsItems db q, it.custom_fields.isSome = true) ∧
    (∀ (db : DB) (q : ListUsersQuery),
      ∀ it ∈ listUsersItems db q, it.custom_fields = none) := by
  constructor
  · intro db q it hit
    simp only [listTicketsItems] at hit
    split at hit
    case isTrue hemp =>
      rw [List.isEmpty_iff, List.map_eq_nil_iff] at hemp
      rw [hemp] at hit
      simp at hit
    case isFalse hemp =>
      obtain ⟨pre, hpre, hset⟩ := List.mem_map.mp hit
      rw [← hset]
      rfl
  · intro db q it hit
    obtain ⟨r, hr, hset⟩ := List.mem_map.mp hit
    rw [← hset]

/-- Witness for the C9 amended theorem: the single item of the `/tickets`
page over `exC9DB` carries the empty custom-field map. -/
theorem listing_items_custom_fields_presence_witness :
    ({ ticket_id := 1, number := "100", created := 0, status_id := 5,
       status_name := "Open", topic_id := 0, topic_name := none,
       dept_id := 0, dept_name := none, user_id := 1, user_name := "Alice",
       user_email := "a@b",
       custom_fields := some [] } : TicketItem).custom_fields.isSome = true :=
  listing_items_custom_fields_presence.1 exC9DB exC9TicketsQuery _ (by decide)

/-- Witness for the C5 amended theorem: an `email` filter together with the
original `limit`/`offset` parameters survives into the next-page link with
the new window substituted. -/
theorem makeUrlParams_preserves_last_value_witness :
    ("email", "a@b.example") ∈
      makeUrlParams [("email", "a@b.example"), ("limit", "50"),
        ("offset", "0")] 50 50 ∧
    ("limit", toString (50 : Nat)) ∈
      makeUrlParams [("email", "a@b.example"), ("limit", "50"),
        ("offset", "0")] 50 50 ∧
    ("offset", toString (50 : Nat)) ∈
      makeUrlParams [("email", "a@b.example"), ("limit", "50"),
        ("offset", "0")] 50 50 :=
  makeUrlParams_preserves_last_value
    [("email", "a@b.example"), ("limit", "50"), ("offset", "0")] 50 50
    "email" "a@b.example" (by decide) (by decide) (by decide)

end OsTicketApi
